/-
Verification development for the `dcp_parser` atomic module
(`src/dcp_parser/atomic/atoms.py` and `src/dcp_parser/atomic/atom_loader.py`).

The atomic module references several sibling modules that are not part of the
sources (`dcp_parser/expression/sign.py`, `curvature.py`, `expression.py`,
`settings.py`, `dcp_parser/atomic/monotonicity.py`,
`dcp_parser/error_messages/dcp_violation_factory.py`).  Definitions embedding
those are modelled from the specification and carry a doc comment starting
with `Modelled from the spec:`.  Everything else is a direct shallow embedding
of the Python source.  Python numbers are modelled as rationals (the int/float
distinction only affects message text, which is abstracted away); Python
exceptions are modelled by `Except PyError`.
-/
import Mathlib

namespace Dcp

/-! ## Sign lattice -/

/-- Modelled from the spec: `sign.py` is not under src/.  Four-valued sign
domain with the total order NEGATIVE < ZERO < POSITIVE < UNKNOWN. -/
inductive Sign
  | NEGATIVE
  | ZERO
  | POSITIVE
  | UNKNOWN
deriving DecidableEq, Fintype

/-- Rank realising the total order NEGATIVE < ZERO < POSITIVE < UNKNOWN. -/
def Sign.toNat : Sign → Nat
  | .NEGATIVE => 0
  | .ZERO => 1
  | .POSITIVE => 2
  | .UNKNOWN => 3

/-- Order on signs (boolean form of the spec's total order). -/
def Sign.le (a b : Sign) : Bool := a.toNat ≤ b.toNat

/-- Strict order on signs. -/
def Sign.lt (a b : Sign) : Bool := a.toNat < b.toNat

/-- Python `max(cur, new)`: keeps `cur` unless `new` is strictly larger. -/
def Sign.smax (cur new : Sign) : Sign := if Sign.lt cur new then new else cur

/-- Python `min(cur, new)`: keeps `cur` unless `new` is strictly smaller. -/
def Sign.smin (cur new : Sign) : Sign := if Sign.lt new cur then new else cur

/-- Modelled from the spec: pairwise sign addition.  POSITIVE+POSITIVE=POSITIVE,
NEGATIVE+NEGATIVE=NEGATIVE, ZERO is the identity, any mix with UNKNOWN or a
POSITIVE/NEGATIVE conflict gives UNKNOWN. -/
def Sign.add : Sign → Sign → Sign
  | .ZERO, s => s
  | s, .ZERO => s
  | .POSITIVE, .POSITIVE => .POSITIVE
  | .NEGATIVE, .NEGATIVE => .NEGATIVE
  | _, _ => .UNKNOWN

/-- Modelled from the spec: `Sign.sum` folds `Sign.add` from the left;
ZERO is its identity. -/
def Sign.sum (l : List Sign) : Sign := l.foldl Sign.add .ZERO

/-! ## Curvature lattice -/

/-- Modelled from the spec: `curvature.py` is not under src/.  Five-valued
curvature domain. -/
inductive Curvature
  | CONSTANT
  | AFFINE
  | CONVEX
  | CONCAVE
  | NONCONVEX
deriving DecidableEq

/-- Modelled from the spec: join of two curvatures.  NONCONVEX is absorbing,
CONVEX joined with CONCAVE is NONCONVEX, CONSTANT is the identity, and the
rest follows the least upper bound of the declared partial order
CONSTANT ⊑ AFFINE ⊑ CONVEX / CONCAVE. -/
def Curvature.add : Curvature → Curvature → Curvature
  | .NONCONVEX, _ => .NONCONVEX
  | _, .NONCONVEX => .NONCONVEX
  | .CONSTANT, c => c
  | c, .CONSTANT => c
  | .AFFINE, c => c
  | c, .AFFINE => c
  | .CONVEX, .CONVEX => .CONVEX
  | .CONCAVE, .CONCAVE => .CONCAVE
  | _, _ => .NONCONVEX

/-- Modelled from the spec: `Curvature.sum` folds the join; CONSTANT is its
identity. -/
def Curvature.sum (l : List Curvature) : Curvature := l.foldl Curvature.add .CONSTANT

/-- `c ⊑ CONVEX` in the declared partial order (can be classified convex). -/
def Curvature.belowConvex : Curvature → Bool
  | .CONSTANT => true
  | .AFFINE => true
  | .CONVEX => true
  | _ => false

/-- `c ⊑ CONCAVE` in the declared partial order (can be classified concave). -/
def Curvature.belowConcave : Curvature → Bool
  | .CONSTANT => true
  | .AFFINE => true
  | .CONCAVE => true
  | _ => false

/-! ## Monotonicity and the composition rule -/

/-- Modelled from the spec: `monotonicity.py` is not under src/. -/
inductive Monotonicity
  | INCREASING
  | DECREASING
  | NONMONOTONIC
deriving DecidableEq

/-- Modelled from the spec: `monotonicity.py` is not under src/.  The DCP
composition rule giving the contribution of one argument: `fc` is the atom's
own signed curvature, `ac` the argument's curvature, `m` the atom's
monotonicity in that argument.  The affine shortcut (fc CONSTANT or AFFINE
returns the argument's curvature) is applied unconditionally before
monotonicity is consulted; for a CONVEX (resp. CONCAVE) atom the contribution
is CONVEX (CONCAVE) when increasing with an argument ⊑ CONVEX (⊑ CONCAVE) or
decreasing with an argument ⊑ CONCAVE (⊑ CONVEX), otherwise AFFINE when the
argument is AFFINE or CONSTANT, otherwise NONCONVEX; a NONCONVEX atom always
contributes NONCONVEX. -/
def Monotonicity.dcp_curvature (m : Monotonicity) (fc ac : Curvature) : Curvature :=
  match fc with
  | .CONSTANT => ac
  | .AFFINE => ac
  | .NONCONVEX => .NONCONVEX
  | .CONVEX =>
    if (m = .INCREASING ∧ ac.belowConvex) ∨ (m = .DECREASING ∧ ac.belowConcave) then
      .CONVEX
    else if ac = .AFFINE ∨ ac = .CONSTANT then .AFFINE
    else .NONCONVEX
  | .CONCAVE =>
    if (m = .INCREASING ∧ ac.belowConcave) ∨ (m = .DECREASING ∧ ac.belowConvex) then
      .CONCAVE
    else if ac = .AFFINE ∨ ac = .CONSTANT then .AFFINE
    else .NONCONVEX

/-! ## Python-level values, errors, expressions -/

/-- A Python number, as a decimal fixed-point value `mant / 10 ^ exp`.  Python
ints have `exp = 0`; float literals such as 0.5 carry their decimal digits
(every float reaching this code is written and printed as a terminating
decimal).
The int/float distinction beyond the exponent only affects message text,
which is abstracted. -/
structure PyNum where
  mant : Int
  exp : Nat
deriving DecidableEq

/-- `10 ^ n` as an integer, by structural recursion (kernel-reducible). -/
def tenPow : Nat → Int
  | 0 => 1
  | n + 1 => 10 * tenPow n

/-- Numeric order on decimals by cross-multiplication. -/
def PyNum.le (a b : PyNum) : Prop := a.mant * tenPow b.exp ≤ b.mant * tenPow a.exp

/-- Strict numeric order on decimals. -/
def PyNum.lt (a b : PyNum) : Prop := a.mant * tenPow b.exp < b.mant * tenPow a.exp

instance (a b : PyNum) : Decidable (a.le b) :=
  inferInstanceAs (Decidable (a.mant * tenPow b.exp ≤ b.mant * tenPow a.exp))

instance (a b : PyNum) : Decidable (a.lt b) :=
  inferInstanceAs (Decidable (a.mant * tenPow b.exp < b.mant * tenPow a.exp))

/-- A non-expression Python value reaching the atomic layer: a number or a
string such as the norm degree symbol. -/
inductive Value
  | num (q : PyNum)
  | str (s : String)
deriving DecidableEq

/-- A diagnostic attached to a built expression: a message and an optional
argument index (`none` for a domain violation not tied to one argument). -/
structure DCPError where
  msg : String
  index : Option Nat
deriving DecidableEq

/-- Python exceptions aborting a construction.  Message text is abstracted.
`typeError` is the arity TypeError of `Atom.__init__` (and of calling a
fixed-arity constructor with the wrong argument count); `unboundLocalError`
is what the zero-argument check in `atom_loader.atomic_func` actually raises
(see `make_atomic_func`); `valueError` is an uncaught `float(...)` conversion
failure; `parameterError` is the Exception raised by `validate_parameter`;
`contractError` is the Exception raised by `Atom.dcp_curvature` on a
length mismatch; `attributeError` marks attribute access on a non-Expression
argument. -/
inductive PyError
  | typeError
  | unboundLocalError
  | valueError
  | parameterError
  | contractError
  | attributeError
deriving DecidableEq

/-- Modelled from the spec: `expression.py` is not under src/.  An immutable
expression node: curvature, sign, display name, owned children (the original
arguments), diagnostics, and — replacing the Python `Constant` subclass — a
tag holding the numeric value when the node is a constant leaf.  The parent
back-reference is not modelled (no claim concerns it). -/
inductive Expression where
  | mk (curvature : Curvature) (sign : Sign) (name : String)
      (subexpressions : List Expression) (errors : List DCPError)
      (constValue : Option Value) : Expression

def Expression.curvature : Expression → Curvature
  | .mk c _ _ _ _ _ => c

def Expression.sign : Expression → Sign
  | .mk _ s _ _ _ _ => s

def Expression.name : Expression → String
  | .mk _ _ n _ _ _ => n

def Expression.subexpressions : Expression → List Expression
  | .mk _ _ _ l _ _ => l

def Expression.errors : Expression → List DCPError
  | .mk _ _ _ _ e _ => e

def Expression.constValue : Expression → Option Value
  | .mk _ _ _ _ _ v => v

instance : Inhabited Expression := ⟨.mk .CONSTANT .ZERO "" [] [] none⟩

/-- An argument as passed to an atom constructor: an expression, or a raw
Python value (numeric literal or string). -/
inductive Arg
  | expr (e : Expression)
  | val (v : Value)

/-- The single scalar parameter of a parameterized atom.  `pynone` is Python
`None` (the "no default" sentinel); `exprParam` records the case where a
compound expression ends up as the parameter (it then fails validation). -/
inductive Param
  | absent
  | pynone
  | num (q : PyNum)
  | str (s : String)
  | exprParam (e : Expression)

/-! ## Numeric literal rendering and parsing (Python `str`, `int`, `float`) -/

/-- Python `str` of a natural number. -/
def natStr (n : Nat) : String := String.mk (Nat.toDigits 10 n)

/-- Python `str` of an integer. -/
def intStr (n : Int) : String :=
  if n < 0 then "-" ++ natStr n.natAbs else natStr n.natAbs

/-- Python `str` of a number: an int renders without a point, a float as
`intpart.fracpart` with `exp` digits after the point. -/
def numStr (q : PyNum) : String :=
  if q.exp = 0 then intStr q.mant
  else
    let ds := Nat.toDigits 10 q.mant.natAbs
    let ds := List.replicate (q.exp + 1 - ds.length) '0' ++ ds
    (if q.mant < 0 then "-" else "")
      ++ String.mk (ds.take (ds.length - q.exp)) ++ "."
      ++ String.mk (ds.drop (ds.length - q.exp))

/-- Decimal digit value of a character. -/
def digVal (c : Char) : Option Nat :=
  if 48 ≤ c.toNat ∧ c.toNat ≤ 57 then some (c.toNat - 48) else none

/-- Value of a non-empty all-digit character list. -/
def digitsToNat (l : List Char) : Option Nat :=
  if l.isEmpty then none
  else l.foldlM (fun acc c => (digVal c).map (fun d => acc * 10 + d)) 0

/-- Python `int(s)` on the strings produced here: an optional minus sign
followed by digits (whitespace, `+` and long-suffix forms never occur). -/
def pyInt (s : String) : Option PyNum :=
  match s.data with
  | '-' :: rest => (digitsToNat rest).map (fun n => ⟨-(n : Int), 0⟩)
  | l => (digitsToNat l).map (fun n => ⟨(n : Int), 0⟩)

/-- `10 ^ n` as a natural number, by structural recursion. -/
def tenPowNat : Nat → Nat
  | 0 => 1
  | n + 1 => 10 * tenPowNat n

/-- Helper for `pyFloat`: unsigned decimal, with or without a point. -/
def pyFloatCore (l : List Char) : Option PyNum :=
  let ip := l.takeWhile (fun c => c ≠ '.')
  match l.dropWhile (fun c => c ≠ '.') with
  | [] => (digitsToNat ip).map (fun n => ⟨(n : Int), 0⟩)
  | '.' :: fp => do
    let a ← digitsToNat ip
    let b ← digitsToNat fp
    pure ⟨(a * tenPowNat fp.length + b : Nat), fp.length⟩
  | _ => none

/-- Python `float(s)` on the strings produced here: optional minus sign, then
digits with an optional point (exponents, `inf`/`nan` and bare
leading/trailing points never occur in a generated constant name). -/
def pyFloat (s : String) : Option PyNum :=
  match s.data with
  | '-' :: rest => (pyFloatCore rest).map (fun q => ⟨-q.mant, q.exp⟩)
  | l => pyFloatCore l

/-- `int(s)` tried first, falling back to `float(s)`: the try/except shape of
`Atom.constant_to_number`.  `none` means the fallback `float` call raises an
uncaught ValueError. -/
def pyNumParse (s : String) : Option PyNum :=
  match pyInt s with
  | some q => some q
  | none => pyFloat s

/-! ## Constants and literal coercion -/

/-- Modelled from the spec: `settings.py` is not under src/.  The minus-sign
display prefix used to recognise a negated constant by its display name. -/
def MINUS : String := "-"

/-- Sign of a numeric literal (the sign of its mantissa). -/
def signOfNum (q : PyNum) : Sign :=
  if 0 < q.mant then .POSITIVE else if q.mant < 0 then .NEGATIVE else .ZERO

/-- Modelled from the spec: `expression.py` is not under src/.  A constant
leaf: curvature CONSTANT, sign of its value, display name its numeral, no
children, no diagnostics, tagged with its value. -/
def Constant (q : PyNum) : Expression :=
  .mk .CONSTANT (signOfNum q) (numStr q) [] [] (some (.num q))

/-- Modelled from the spec: `Expression.type_check` coerces a numeric literal
to a `Constant` leaf and leaves every other argument unchanged. -/
def Expression.type_check : Arg → Arg
  | .val (.num q) => .expr (Constant q)
  | a => a

/-- Attribute access on an argument that must be an expression; a raw value
here raises (Python would raise AttributeError at the first `.sign` or
`.curvature` access). -/
def Arg.asExpr : Arg → Except PyError Expression
  | .expr e => .ok e
  | .val _ => .error .attributeError

/-- The guard of `Atom.constant_to_number` (atoms.py lines 95-98): the
argument is a `Constant`, or an expression with exactly one sub-expression
whose display name is the minus sign followed by that sub-expression's name. -/
def Expression.isConstantLike (e : Expression) : Bool :=
  e.constValue.isSome ||
    (match e.subexpressions with
     | [s] => e.name == MINUS ++ s.name
     | _ => false)

/-- `Atom.constant_to_number` (atoms.py lines 93-104): converts a `Constant`
or negated constant to its numeric value by parsing its display name —
`int(name)` first, a ValueError there is caught and `float(name)` is tried,
whose own ValueError propagates.  Any other argument is returned unchanged. -/
def Atom.constant_to_number : Arg → Except PyError Arg
  | .expr e =>
    if e.isConstantLike then
      match pyNumParse e.name with
      | some q => .ok (.val (.num q))
      | none => .error .valueError
    else .ok (.expr e)
  | .val v => .ok (.val v)

/-! ## Generic atom machinery -/

def Param.ofValue : Value → Param
  | .num q => .num q
  | .str s => .str s

def Param.ofArg : Arg → Param
  | .expr e => .exprParam e
  | .val v => Param.ofValue v

/-- `Parameterized.set_parameter` in its vararg form (atoms.py lines 146-155):
start from the default, and if a last argument exists whose
`constant_to_number` image is not an Expression, take that image as the
parameter and drop the argument; then validate the parameter (aborting the
construction on failure) and return the remaining arguments. -/
def Parameterized.set_parameter (validate : Param → Except PyError Unit) (default : Param)
    (args : List Arg) : Except PyError (Param × List Arg) := do
  let pr ←
    match args.getLast? with
    | none => pure (default, args)
    | some last => do
      let la ← Atom.constant_to_number last
      match la with
      | .expr _ => pure (default, args)
      | .val v => pure (Param.ofValue v, args.dropLast)
  validate pr.1
  pure pr

/-- `Atom.__init__` (atoms.py lines 30-39): raise a TypeError when no
arguments are given, then coerce numeric constants to `Constant` leaves.
Python would store a surviving non-Expression (only a stray string could
survive `type_check`) and raise AttributeError at its first attribute access;
the embedding surfaces that error here, which no claim's input reaches. -/
def Atom.init (args : List Arg) : Except PyError (List Expression) :=
  if args.isEmpty then .error .typeError
  else (args.map Expression.type_check).mapM Arg.asExpr

/-- `Atom.dcp_curvature` (atoms.py lines 123-130): the overall curvature is
the join of the per-argument contributions; a length mismatch between the
arguments and the monotonicities raises. -/
def Atom.dcp_curvature (c : Curvature) (args : List Expression) (ms : List Monotonicity) :
    Except PyError Curvature :=
  if args.length ≠ ms.length then .error .contractError
  else .ok (Curvature.sum (List.zipWith (fun a m => m.dcp_curvature c a.curvature) args ms))

/-- Modelled from the spec: `dcp_violation_factory.py` is not under src/.
For each argument whose composition contribution is NONCONVEX, one diagnostic
indexed to that argument; when the atom's own signed curvature is NONCONVEX
(a domain error), additionally one un-indexed diagnostic. -/
def DCPViolationFactory.composition_error (fc : Curvature) (ms : List Monotonicity)
    (cs : List Curvature) : List DCPError :=
  let contribs := List.zipWith (fun m c => m.dcp_curvature fc c) ms cs
  (contribs.enum.filterMap fun p =>
    if p.2 = .NONCONVEX then
      some ⟨"argument curvature is incompatible with the atom", some p.1⟩
    else none)
  ++ (if fc = .NONCONVEX then [⟨"the atom is applied outside its domain", none⟩] else [])

/-- The transient state of a constructed atom: the (possibly substituted)
arguments used for rule evaluation, the original arguments as passed in, the
optional scalar parameter, and the three rule outputs computed from the
arguments. -/
structure AtomInst where
  args : List Expression
  original_args : List Expression
  parameter : Param
  sign : Sign
  signed_curvature : Curvature
  monotonicities : List Monotonicity

/-- `Atom.atom_to_expression` (atoms.py lines 83-88): turn an atom instance
into an expression with the same curvature and sign, named "atom", whose
children are the atom's original arguments. -/
def Atom.atom_to_expression (inst : AtomInst) : Except PyError Expression := do
  let c ← Atom.dcp_curvature inst.signed_curvature inst.args inst.monotonicities
  pure (.mk c inst.sign "atom" inst.original_args [] none)

/-- `ABS_SIGN_TO_MONOTONICITY` (atoms.py lines 22-27): monotonicity of an
absolute-value-like atom as a function of the argument's sign. -/
def ABS_SIGN_TO_MONOTONICITY : Sign → Monotonicity
  | .POSITIVE => .INCREASING
  | .ZERO => .INCREASING
  | .NEGATIVE => .DECREASING
  | .UNKNOWN => .NONMONOTONIC

/-! ## The atom rule table (one constructor per class in atoms.py) -/

/-- `Log_sum_exp`: always unknown sign, convex, increasing in each argument. -/
def Log_sum_exp.construct (args : List Arg) : Except PyError AtomInst := do
  let es ← Atom.init args
  pure { args := es, original_args := es, parameter := .absent, sign := .UNKNOWN,
         signed_curvature := .CONVEX,
         monotonicities := List.replicate es.length .INCREASING }

/-- `Max.sign` (atoms.py lines 189-194): the order-maximum of the argument
signs (`max(arg_signs)`, here folded from the bottom element NEGATIVE, which
agrees on the non-empty lists the arity check admits), except that UNKNOWN
together with a ZERO argument gives POSITIVE. -/
def Max.sign_rule (signs : List Sign) : Sign :=
  let m := signs.foldl Sign.smax .NEGATIVE
  if m = .UNKNOWN ∧ .ZERO ∈ signs then .POSITIVE else m

/-- `Max`: convex, increasing in each argument. -/
def Max.construct (args : List Arg) : Except PyError AtomInst := do
  let es ← Atom.init args
  pure { args := es, original_args := es, parameter := .absent,
         sign := Max.sign_rule (es.map Expression.sign), signed_curvature := .CONVEX,
         monotonicities := List.replicate es.length .INCREASING }

/-- `Min.sign` (atoms.py lines 215-220): the order-minimum of the argument
signs (folded from the top element UNKNOWN), except that ZERO together with
an UNKNOWN argument gives NEGATIVE. -/
def Min.sign_rule (signs : List Sign) : Sign :=
  let m := signs.foldl Sign.smin .UNKNOWN
  if m = .ZERO ∧ .UNKNOWN ∈ signs then .NEGATIVE else m

/-- `Min`: concave, increasing in each argument. -/
def Min.construct (args : List Arg) : Except PyError AtomInst := do
  let es ← Atom.init args
  pure { args := es, original_args := es, parameter := .absent,
         sign := Min.sign_rule (es.map Expression.sign), signed_curvature := .CONCAVE,
         monotonicities := List.replicate es.length .INCREASING }

/-- `Log` (atoms.py lines 230-253): one argument; unknown sign; concave
unless the argument's sign is NEGATIVE or ZERO (domain error, NONCONVEX);
increasing. -/
def Log.construct (args : List Arg) : Except PyError AtomInst :=
  match args with
  | [_] => do
    let es ← Atom.init args
    let s0 := (es.headI).sign
    pure { args := es, original_args := es, parameter := .absent, sign := .UNKNOWN,
           signed_curvature := if s0 = .NEGATIVE ∨ s0 = .ZERO then .NONCONVEX else .CONCAVE,
           monotonicities := [.INCREASING] }
  | _ => .error .typeError

/-- `Sum` (atoms.py lines 255-268): sign is the sign-sum of the arguments;
affine; increasing in each argument. -/
def Sum.construct (args : List Arg) : Except PyError AtomInst := do
  let es ← Atom.init args
  pure { args := es, original_args := es, parameter := .absent,
         sign := Sign.sum (es.map Expression.sign), signed_curvature := .AFFINE,
         monotonicities := List.replicate es.length .INCREASING }

/-- `Geo_mean.sign`: UNKNOWN if any argument is negative, else POSITIVE if
any argument is non-zero, else ZERO. -/
def Geo_mean.sign_rule (signs : List Sign) : Sign :=
  if .NEGATIVE ∈ signs then .UNKNOWN
  else if signs.any (fun s => s ≠ .ZERO) then .POSITIVE
  else .ZERO

/-- `Geo_mean`: concave unless an argument is negative (NONCONVEX);
increasing in each argument. -/
def Geo_mean.construct (args : List Arg) : Except PyError AtomInst := do
  let es ← Atom.init args
  let signs := es.map Expression.sign
  pure { args := es, original_args := es, parameter := .absent,
         sign := Geo_mean.sign_rule signs,
         signed_curvature := if .NEGATIVE ∈ signs then .NONCONVEX else .CONCAVE,
         monotonicities := List.replicate es.length .INCREASING }

/-- `Sqrt`: `Geo_mean` of a single argument. -/
def Sqrt.construct (args : List Arg) : Except PyError AtomInst :=
  match args with
  | [x] => Geo_mean.construct [x]
  | _ => .error .typeError

/-- `Log_normcdf`: one argument; unknown sign; concave; increasing. -/
def Log_normcdf.construct (args : List Arg) : Except PyError AtomInst :=
  match args with
  | [_] => do
    let es ← Atom.init args
    pure { args := es, original_args := es, parameter := .absent, sign := .UNKNOWN,
           signed_curvature := .CONCAVE, monotonicities := [.INCREASING] }
  | _ => .error .typeError

/-- `Exp` (atoms.py lines 326-341): one argument; positive; convex;
increasing. -/
def Exp.construct (args : List Arg) : Except PyError AtomInst :=
  match args with
  | [_] => do
    let es ← Atom.init args
    pure { args := es, original_args := es, parameter := .absent, sign := .POSITIVE,
           signed_curvature := .CONVEX, monotonicities := [.INCREASING] }
  | _ => .error .typeError

/-- `Norm.validate_parameter` (atoms.py lines 357-362): p must be a number
greater than or equal to 1, or the string "Inf". -/
def Norm.validate : Param → Except PyError Unit
  | .num q => if PyNum.le ⟨1, 0⟩ q then .ok () else .error .parameterError
  | .str s => if s = "Inf" then .ok () else .error .parameterError
  | _ => .error .parameterError

/-- `Norm.sign`: POSITIVE unless all argument signs are ZERO. -/
def Norm.sign_rule (signs : List Sign) : Sign :=
  if signs.any (fun s => s ≠ .ZERO) then .POSITIVE else .ZERO

/-- `Norm` (atoms.py lines 343-382): peel the p parameter (default 2) off the
last argument, validate it, then: sign as `Norm.sign_rule`, convex,
absolute-value-like monotonicity per argument. -/
def Norm.construct (args : List Arg) : Except PyError AtomInst := do
  let (p, rest) ← Parameterized.set_parameter Norm.validate (.num ⟨2, 0⟩) args
  let es ← Atom.init rest
  pure { args := es, original_args := es, parameter := p,
         sign := Norm.sign_rule (es.map Expression.sign), signed_curvature := .CONVEX,
         monotonicities := es.map (fun e => ABS_SIGN_TO_MONOTONICITY e.sign) }

/-- `Norm2`: `Norm` with 2 appended as the parameter argument. -/
def Norm2.construct (args : List Arg) : Except PyError AtomInst :=
  Norm.construct (args ++ [.val (.num ⟨2, 0⟩)])

/-- `Norm1`: `Norm` with 1 appended as the parameter argument. -/
def Norm1.construct (args : List Arg) : Except PyError AtomInst :=
  Norm.construct (args ++ [.val (.num ⟨1, 0⟩)])

/-- `Norm_inf`: `Norm` with "Inf" appended as the parameter argument. -/
def Norm_inf.construct (args : List Arg) : Except PyError AtomInst :=
  Norm.construct (args ++ [.val (.str "Inf")])

/-- `Abs`: `Norm(x, 1)` of a single argument. -/
def Abs.construct (args : List Arg) : Except PyError AtomInst :=
  match args with
  | [x] => Norm.construct [x, .val (.num ⟨1, 0⟩)]
  | _ => .error .typeError

/-- `Entr`: one argument; ZERO sign iff the argument is ZERO, else UNKNOWN;
concave unless the argument is negative (NONCONVEX); non-monotonic. -/
def Entr.construct (args : List Arg) : Except PyError AtomInst :=
  match args with
  | [_] => do
    let es ← Atom.init args
    let signs := es.map Expression.sign
    pure { args := es, original_args := es, parameter := .absent,
           sign := if .ZERO ∈ signs then .ZERO else .UNKNOWN,
           signed_curvature := if .NEGATIVE ∈ signs then .NONCONVEX else .CONCAVE,
           monotonicities := [.NONMONOTONIC] }
  | _ => .error .typeError

/-- `Huber.validate_parameter`: M must be a positive number. -/
def Huber.validate : Param → Except PyError Unit
  | .num q => if PyNum.lt ⟨0, 0⟩ q then .ok () else .error .parameterError
  | _ => .error .parameterError

/-- `Huber.__init__` body for given x and M: the parameter is
`constant_to_number(M)` (validated), the single argument is x; sign is ZERO
iff the argument is ZERO else POSITIVE; convex; absolute-value-like
monotonicity. -/
def Huber.constructXM (x M : Arg) : Except PyError AtomInst := do
  let m ← Atom.constant_to_number M
  let p := Param.ofArg m
  Huber.validate p
  let es ← Atom.init [x]
  pure { args := es, original_args := es, parameter := p,
         sign := if .ZERO ∈ es.map Expression.sign then .ZERO else .POSITIVE,
         signed_curvature := .CONVEX,
         monotonicities := [ABS_SIGN_TO_MONOTONICITY (es.headI).sign] }

/-- `Huber`: M defaults to 1. -/
def Huber.construct (args : List Arg) : Except PyError AtomInst :=
  match args with
  | [x] => Huber.constructXM x (.val (.num ⟨1, 0⟩))
  | [x, M] => Huber.constructXM x M
  | _ => .error .typeError

/-- `Berhu`: identical to `Huber` except for the class name (which only
affects abstracted message text). -/
def Berhu.construct (args : List Arg) : Except PyError AtomInst :=
  Huber.construct args

/-- `Huber_pos` rule overrides on the `Huber` construction: sign ZERO when
the argument's sign is at most ZERO else POSITIVE; constant when that sign is
ZERO else convex; increasing. -/
def Huber_pos.constructXM (x M : Arg) : Except PyError AtomInst := do
  let m ← Atom.constant_to_number M
  let p := Param.ofArg m
  Huber.validate p
  let es ← Atom.init [x]
  let sgn := if Sign.le (es.headI).sign .ZERO then Sign.ZERO else Sign.POSITIVE
  pure { args := es, original_args := es, parameter := p, sign := sgn,
         signed_curvature := if Sign.le sgn .ZERO then .CONSTANT else .CONVEX,
         monotonicities := [.INCREASING] }

/-- `Huber_pos`: M defaults to 1. -/
def Huber_pos.construct (args : List Arg) : Except PyError AtomInst :=
  match args with
  | [x] => Huber_pos.constructXM x (.val (.num ⟨1, 0⟩))
  | [x, M] => Huber_pos.constructXM x M
  | _ => .error .typeError

/-- `Huber_circ`: peel M (default 1, validated as for Huber), build
`Norm(args..., 2)` as a generated expression, construct `Huber_pos` on it
with the same M, and record the peeled arguments as the original ones.
After successful validation the parameter is necessarily a number. -/
def Huber_circ.construct (args : List Arg) : Except PyError AtomInst := do
  let (p, rest) ← Parameterized.set_parameter Huber.validate (.num ⟨1, 0⟩) args
  let ninst ← Norm.construct (rest ++ [.val (.num ⟨2, 0⟩)])
  let nexp ← Atom.atom_to_expression ninst
  match p with
  | .num q => do
    let inst ← Huber_pos.constructXM (.expr nexp) (.val (.num q))
    let orig ← (rest.map Expression.type_check).mapM Arg.asExpr
    pure { inst with original_args := orig }
  | _ => .error .parameterError

/-- `Inv_pos`: one argument; POSITIVE unless the argument's sign is NEGATIVE
or ZERO (then UNKNOWN); convex unless that domain error (NONCONVEX);
decreasing. -/
def Inv_pos.construct (args : List Arg) : Except PyError AtomInst :=
  match args with
  | [_] => do
    let es ← Atom.init args
    let s0 := (es.headI).sign
    pure { args := es, original_args := es, parameter := .absent,
           sign := if s0 = .NEGATIVE ∨ s0 = .ZERO then .UNKNOWN else .POSITIVE,
           signed_curvature := if s0 = .NEGATIVE ∨ s0 = .ZERO then .NONCONVEX else .CONVEX,
           monotonicities := [.DECREASING] }
  | _ => .error .typeError

/-- `Kl_div`: two arguments; positive; convex unless an argument is NEGATIVE
or ZERO (NONCONVEX); non-monotonic in both. -/
def Kl_div.construct (args : List Arg) : Except PyError AtomInst :=
  match args with
  | [_, _] => do
    let es ← Atom.init args
    let signs := es.map Expression.sign
    pure { args := es, original_args := es, parameter := .absent, sign := .POSITIVE,
           signed_curvature :=
             if .NEGATIVE ∈ signs ∨ .ZERO ∈ signs then .NONCONVEX else .CONVEX,
           monotonicities := [.NONMONOTONIC, .NONMONOTONIC] }
  | _ => .error .typeError

/-- `Norm_largest.validate_parameter` (also used by `Sum_largest`): k must be
a number. -/
def Norm_largest.validate : Param → Except PyError Unit
  | .num _ => .ok ()
  | _ => .error .parameterError

/-- `Norm_largest`: peel k (no default) off the last argument; positive;
convex; absolute-value-like monotonicity per argument. -/
def Norm_largest.construct (args : List Arg) : Except PyError AtomInst := do
  let (p, rest) ← Parameterized.set_parameter Norm_largest.validate .pynone args
  let es ← Atom.init rest
  pure { args := es, original_args := es, parameter := p, sign := .POSITIVE,
         signed_curvature := .CONVEX,
         monotonicities := es.map (fun e => ABS_SIGN_TO_MONOTONICITY e.sign) }

/-- `Pos`: `Max(x, 0)` with original arguments `[x]`. -/
def Pos.construct (args : List Arg) : Except PyError AtomInst :=
  match args with
  | [x] => do
    let inst ← Max.construct [x, .val (.num ⟨0, 0⟩)]
    let orig ← ([x].map Expression.type_check).mapM Arg.asExpr
    pure { inst with original_args := orig }
  | _ => .error .typeError

/-- `Pow.validate_parameter`: p must be a number. -/
def Pow.validate : Param → Except PyError Unit
  | .num _ => .ok ()
  | _ => .error .parameterError

/-- `Pow.__init__` body, parameterized by the (virtually dispatched)
parameter validator: the parameter is `constant_to_number(p)` (validated),
the single argument is x; sign, curvature and monotonicity depend on p and
the argument's sign exactly as in atoms.py lines 636-671.  Every validator
used accepts numbers only, so the non-numeric fallback after validation is
unreachable. -/
def Pow.core (validate : Param → Except PyError Unit) (x p : Arg) : Except PyError AtomInst := do
  let cn ← Atom.constant_to_number p
  let pp := Param.ofArg cn
  validate pp
  let es ← Atom.init [x]
  match pp with
  | .num q =>
    let xs := (es.headI).sign
    pure { args := es, original_args := es, parameter := pp,
           sign :=
             if xs = .NEGATIVE ∨ (PyNum.le q ⟨0, 0⟩ ∧ xs = .ZERO) then .UNKNOWN
             else if xs = .ZERO then .ZERO else .POSITIVE,
           signed_curvature :=
             if xs = .NEGATIVE ∨ (PyNum.le q ⟨0, 0⟩ ∧ xs = .ZERO) then .NONCONVEX
             else if PyNum.le q ⟨0, 0⟩ then .CONVEX
             else if PyNum.le q ⟨1, 0⟩ then .CONCAVE
             else .CONVEX,
           monotonicities :=
             if PyNum.le q ⟨0, 0⟩ then [.DECREASING]
             else if PyNum.le q ⟨1, 0⟩ then [.INCREASING]
             else [ABS_SIGN_TO_MONOTONICITY xs] }
  | _ => .error .parameterError

/-- `Pow`: two arguments x and p. -/
def Pow.construct (args : List Arg) : Except PyError AtomInst :=
  match args with
  | [x, p] => Pow.core Pow.validate x p
  | _ => .error .typeError

/-- `Pow_abs.validate_parameter`: p must be a number greater than or equal
to 1. -/
def Pow_abs.validate : Param → Except PyError Unit
  | .num q => if PyNum.le ⟨1, 0⟩ q then .ok () else .error .parameterError
  | _ => .error .parameterError

/-- `Pow_abs`: `Pow(abs(x), p)` with original arguments `[x]` and the
stricter validator. -/
def Pow_abs.construct (args : List Arg) : Except PyError AtomInst :=
  match args with
  | [x, p] => do
    let ainst ← Abs.construct [x]
    let aexp ← Atom.atom_to_expression ainst
    let inst ← Pow.core Pow_abs.validate (.expr aexp) p
    let orig ← ([x].map Expression.type_check).mapM Arg.asExpr
    pure { inst with original_args := orig }
  | _ => .error .typeError

/-- `Pow_pos`: `Pow(pos(x), p)` with original arguments `[x]` and the same
stricter validator as `Pow_abs`. -/
def Pow_pos.construct (args : List Arg) : Except PyError AtomInst :=
  match args with
  | [x, p] => do
    let pinst ← Pos.construct [x]
    let pexp ← Atom.atom_to_expression pinst
    let inst ← Pow.core Pow_abs.validate (.expr pexp) p
    let orig ← ([x].map Expression.type_check).mapM Arg.asExpr
    pure { inst with original_args := orig }
  | _ => .error .typeError

/-- `Square_abs`: `Pow_abs(x, 2)`. -/
def Square_abs.construct (args : List Arg) : Except PyError AtomInst :=
  match args with
  | [x] => Pow_abs.construct [x, .val (.num ⟨2, 0⟩)]
  | _ => .error .typeError

/-- `Square_pos`: `Pow_pos(x, 2)`. -/
def Square_pos.construct (args : List Arg) : Except PyError AtomInst :=
  match args with
  | [x] => Pow_pos.construct [x, .val (.num ⟨2, 0⟩)]
  | _ => .error .typeError

/-- `Rel_entr`: two arguments; unknown sign; convex; non-monotonic in both. -/
def Rel_entr.construct (args : List Arg) : Except PyError AtomInst :=
  match args with
  | [_, _] => do
    let es ← Atom.init args
    pure { args := es, original_args := es, parameter := .absent, sign := .UNKNOWN,
           signed_curvature := .CONVEX,
           monotonicities := [.NONMONOTONIC, .NONMONOTONIC] }
  | _ => .error .typeError

/-- `Quad_over_lin` (atoms.py lines 728-764): two arguments x and y; POSITIVE
unless y's sign is NEGATIVE or ZERO (then UNKNOWN); convex unless that domain
error (NONCONVEX); absolute-value-like in x, decreasing in y. -/
def Quad_over_lin.construct (args : List Arg) : Except PyError AtomInst :=
  match args with
  | [x, y] => do
    let es ← Atom.init [x, y]
    let xe := es.headI
    let ye := (es.drop 1).headI
    pure { args := es, original_args := es, parameter := .absent,
           sign := if ye.sign = .NEGATIVE ∨ ye.sign = .ZERO then .UNKNOWN else .POSITIVE,
           signed_curvature :=
             if ye.sign = .NEGATIVE ∨ ye.sign = .ZERO then .NONCONVEX else .CONVEX,
           monotonicities := [ABS_SIGN_TO_MONOTONICITY xe.sign, .DECREASING] }
  | _ => .error .typeError

/-- `Square` (atoms.py lines 766-770): `Quad_over_lin(x, 1)` with original
arguments `[x]`. -/
def Square.construct (args : List Arg) : Except PyError AtomInst :=
  match args with
  | [x] => do
    let inst ← Quad_over_lin.construct [x, .val (.num ⟨1, 0⟩)]
    let orig ← ([x].map Expression.type_check).mapM Arg.asExpr
    pure { inst with original_args := orig }
  | _ => .error .typeError

/-- `Sum_square`: `Quad_over_lin(norm(args..., 2), 1)` with the given
arguments as the original ones. -/
def Sum_square.construct (args : List Arg) : Except PyError AtomInst := do
  let ninst ← Norm.construct (args ++ [.val (.num ⟨2, 0⟩)])
  let nexp ← Atom.atom_to_expression ninst
  let inst ← Quad_over_lin.construct [.expr nexp, .val (.num ⟨1, 0⟩)]
  let orig ← (args.map Expression.type_check).mapM Arg.asExpr
  pure { inst with original_args := orig }

/-- `Sum_square_abs`: `Sum_square(abs(x1), ..., abs(xn))` with the given
arguments as the original ones. -/
def Sum_square_abs.construct (args : List Arg) : Except PyError AtomInst := do
  let absed ← args.mapM (fun a => do
    let i ← Abs.construct [a]
    let e ← Atom.atom_to_expression i
    pure (Arg.expr e))
  let inst ← Sum_square.construct absed
  let orig ← (args.map Expression.type_check).mapM Arg.asExpr
  pure { inst with original_args := orig }

/-- `Sum_square_pos`: `Sum_square(pos(x1), ..., pos(xn))` with the given
arguments as the original ones. -/
def Sum_square_pos.construct (args : List Arg) : Except PyError AtomInst := do
  let posed ← args.mapM (fun a => do
    let i ← Pos.construct [a]
    let e ← Atom.atom_to_expression i
    pure (Arg.expr e))
  let inst ← Sum_square.construct posed
  let orig ← (args.map Expression.type_check).mapM Arg.asExpr
  pure { inst with original_args := orig }

/-- `Sum_largest`: peel k (no default, must be a number) off the last
argument; unknown sign; convex; increasing in each argument. -/
def Sum_largest.construct (args : List Arg) : Except PyError AtomInst := do
  let (p, rest) ← Parameterized.set_parameter Norm_largest.validate .pynone args
  let es ← Atom.init rest
  pure { args := es, original_args := es, parameter := p, sign := .UNKNOWN,
         signed_curvature := .CONVEX,
         monotonicities := List.replicate es.length .INCREASING }

/-- `Sum_smallest`: as `Sum_largest` but concave. -/
def Sum_smallest.construct (args : List Arg) : Except PyError AtomInst := do
  let (p, rest) ← Parameterized.set_parameter Norm_largest.validate .pynone args
  let es ← Atom.init rest
  pure { args := es, original_args := es, parameter := p, sign := .UNKNOWN,
         signed_curvature := .CONCAVE,
         monotonicities := List.replicate es.length .INCREASING }

/-! ## The atom classes and the registry (atom_loader.py) -/

/-- Every class defined in atoms.py, in definition order. -/
inductive AtomClass
  | log_sum_exp | max | min | log | sum | geo_mean | sqrt | log_normcdf | exp
  | norm | norm2 | norm1 | norm_inf | abs | entr | huber | berhu | huber_pos
  | huber_circ | inv_pos | kl_div | norm_largest | pos | pow | pow_abs | pow_pos
  | square_abs | square_pos | rel_entr | quad_over_lin | square | sum_square
  | sum_square_abs | sum_square_pos | sum_largest | sum_smallest
deriving DecidableEq

/-- `cls.__name__.lower()`. -/
def AtomClass.className : AtomClass → String
  | .log_sum_exp => "log_sum_exp"
  | .max => "max"
  | .min => "min"
  | .log => "log"
  | .sum => "sum"
  | .geo_mean => "geo_mean"
  | .sqrt => "sqrt"
  | .log_normcdf => "log_normcdf"
  | .exp => "exp"
  | .norm => "norm"
  | .norm2 => "norm2"
  | .norm1 => "norm1"
  | .norm_inf => "norm_inf"
  | .abs => "abs"
  | .entr => "entr"
  | .huber => "huber"
  | .berhu => "berhu"
  | .huber_pos => "huber_pos"
  | .huber_circ => "huber_circ"
  | .inv_pos => "inv_pos"
  | .kl_div => "kl_div"
  | .norm_largest => "norm_largest"
  | .pos => "pos"
  | .pow => "pow"
  | .pow_abs => "pow_abs"
  | .pow_pos => "pow_pos"
  | .square_abs => "square_abs"
  | .square_pos => "square_pos"
  | .rel_entr => "rel_entr"
  | .quad_over_lin => "quad_over_lin"
  | .square => "square"
  | .sum_square => "sum_square"
  | .sum_square_abs => "sum_square_abs"
  | .sum_square_pos => "sum_square_pos"
  | .sum_largest => "sum_largest"
  | .sum_smallest => "sum_smallest"

/-- The class's constructor. -/
def AtomClass.construct : AtomClass → List Arg → Except PyError AtomInst
  | .log_sum_exp => Log_sum_exp.construct
  | .max => Max.construct
  | .min => Min.construct
  | .log => Log.construct
  | .sum => Sum.construct
  | .geo_mean => Geo_mean.construct
  | .sqrt => Sqrt.construct
  | .log_normcdf => Log_normcdf.construct
  | .exp => Exp.construct
  | .norm => Norm.construct
  | .norm2 => Norm2.construct
  | .norm1 => Norm1.construct
  | .norm_inf => Norm_inf.construct
  | .abs => Abs.construct
  | .entr => Entr.construct
  | .huber => Huber.construct
  | .berhu => Berhu.construct
  | .huber_pos => Huber_pos.construct
  | .huber_circ => Huber_circ.construct
  | .inv_pos => Inv_pos.construct
  | .kl_div => Kl_div.construct
  | .norm_largest => Norm_largest.construct
  | .pos => Pos.construct
  | .pow => Pow.construct
  | .pow_abs => Pow_abs.construct
  | .pow_pos => Pow_pos.construct
  | .square_abs => Square_abs.construct
  | .square_pos => Square_pos.construct
  | .rel_entr => Rel_entr.construct
  | .quad_over_lin => Quad_over_lin.construct
  | .square => Square.construct
  | .sum_square => Sum_square.construct
  | .sum_square_abs => Sum_square_abs.construct
  | .sum_square_pos => Sum_square_pos.construct
  | .sum_largest => Sum_largest.construct
  | .sum_smallest => Sum_smallest.construct

/-- Whether the class's own `class` statement names `Atom` as a direct base
(possibly with `Parameterized` beside it), i.e. whether Python's
`Atom.__subclasses__()` reports it.  Wrapper atoms subclass another atom
(`Sqrt(Geo_mean)`, `Norm2/Norm1/Norm_inf/Abs(Norm)`, `Berhu/Huber_pos(Huber)`,
`Huber_circ(Huber_pos)`, `Pos(Max)`, `Pow_abs/Pow_pos(Pow)`,
`Square_abs(Pow_abs)`, `Square_pos(Pow_pos)`, `Square/Sum_square
(Quad_over_lin)`, `Sum_square_abs/Sum_square_pos(Sum_square)`,
`Sum_smallest(Sum_largest)`) and are not direct subclasses. -/
def AtomClass.directSubclassOfAtom : AtomClass → Bool
  | .log_sum_exp => true
  | .max => true
  | .min => true
  | .log => true
  | .sum => true
  | .geo_mean => true
  | .log_normcdf => true
  | .exp => true
  | .norm => true
  | .entr => true
  | .huber => true
  | .inv_pos => true
  | .kl_div => true
  | .norm_largest => true
  | .pow => true
  | .rel_entr => true
  | .quad_over_lin => true
  | .sum_largest => true
  | _ => false

/-- Every class defined in atoms.py, in definition order. -/
def allAtomClasses : List AtomClass :=
  [.log_sum_exp, .max, .min, .log, .sum, .geo_mean, .sqrt, .log_normcdf, .exp,
   .norm, .norm2, .norm1, .norm_inf, .abs, .entr, .huber, .berhu, .huber_pos,
   .huber_circ, .inv_pos, .kl_div, .norm_largest, .pos, .pow, .pow_abs, .pow_pos,
   .square_abs, .square_pos, .rel_entr, .quad_over_lin, .square, .sum_square,
   .sum_square_abs, .sum_square_pos, .sum_largest, .sum_smallest]

/-- `str(arg)` as used when building a display name: an expression renders as
its display name, a raw value as its literal. -/
def Arg.strRepr : Arg → String
  | .expr e => e.name
  | .val (.num q) => numStr q
  | .val (.str s) => s

/-- `make_atomic_func`/`atomic_func` (atom_loader.py lines 9-31).  On an
empty argument list the code attempts
`raise Exception('%s requires at least one argument.' % func_name)`
(line 14), but `func_name` is a local of `atomic_func` first assigned only at
line 19, so evaluating the format expression raises UnboundLocalError — that
error, not the intended arity Exception, aborts the call.  Otherwise: coerce
numeric literals to constants, construct the atom instance, build the display
name from the lower-cased class name and the coerced arguments, compute the
diagnostics from the instance's signed curvature, monotonicities and
(substituted) argument curvatures, and return an Expression carrying the
instance's composed curvature and sign, with the coerced outer arguments
(parameters included) as its children. -/
def make_atomic_func (cls : AtomClass) (args : List Arg) : Except PyError Expression := do
  if args.length = 0 then
    throw .unboundLocalError
  let targs := args.map Expression.type_check
  let inst ← cls.construct targs
  let name := cls.className ++ "(" ++ String.intercalate ", " (targs.map Arg.strRepr) ++ ")"
  let errors := DCPViolationFactory.composition_error inst.signed_curvature
      inst.monotonicities (inst.args.map Expression.curvature)
  let curv ← Atom.dcp_curvature inst.signed_curvature inst.args inst.monotonicities
  let subexprs ← targs.mapM Arg.asExpr
  pure (.mk curv inst.sign name subexprs errors none)

/-- `Atom.__subclasses__()`: only the direct subclasses, in definition
order. -/
def Atom.subclasses : List AtomClass :=
  allAtomClasses.filter AtomClass.directSubclassOfAtom

/-- `generate_atom_dict` (atom_loader.py lines 34-40): maps the lower-cased
name of each class reported by `Atom.__subclasses__()` to its generated
atomic function. -/
def generate_atom_dict : List (String × (List Arg → Except PyError Expression)) :=
  Atom.subclasses.map (fun c => (c.className, make_atomic_func c))

/-- The key set of the registry. -/
def atom_dict_keys : List String := generate_atom_dict.map Prod.fst

/-! ## Helper lemmas -/

theorem mapM_asExpr_map_expr (es : List Expression) :
    ((es.map Arg.expr).map Expression.type_check).mapM Arg.asExpr = Except.ok es := by
  induction es with
  | nil => rfl
  | cons a t ih =>
    simp only [List.map_cons, List.mapM_cons, Expression.type_check, Arg.asExpr, ih]
    rfl

theorem init_map_expr (es : List Expression) (h : es ≠ []) :
    Atom.init (es.map Arg.expr) = Except.ok es := by
  match es, h with
  | a :: t, _ => simpa [Atom.init] using mapM_asExpr_map_expr (a :: t)

theorem sign_le_refl : ∀ a : Sign, Sign.le a a = true := by decide

theorem sign_le_trans :
    ∀ a b c : Sign, Sign.le a b = true → Sign.le b c = true → Sign.le a c = true := by decide

theorem sign_le_antisymm :
    ∀ a b : Sign, Sign.le a b = true → Sign.le b a = true → a = b := by decide

theorem sign_neg_le : ∀ a : Sign, Sign.le .NEGATIVE a = true := by decide

theorem sign_le_unknown : ∀ a : Sign, Sign.le a .UNKNOWN = true := by decide

theorem smax_le_left : ∀ a b : Sign, Sign.le a (Sign.smax a b) = true := by decide

theorem smax_le_right : ∀ a b : Sign, Sign.le b (Sign.smax a b) = true := by decide

theorem smax_or : ∀ a b : Sign, Sign.smax a b = a ∨ Sign.smax a b = b := by decide

theorem smin_le_left : ∀ a b : Sign, Sign.le (Sign.smin a b) a = true := by decide

theorem smin_le_right : ∀ a b : Sign, Sign.le (Sign.smin a b) b = true := by decide

theorem smin_or : ∀ a b : Sign, Sign.smin a b = a ∨ Sign.smin a b = b := by decide

theorem foldl_smax_le (l : List Sign) : ∀ seed,
    Sign.le seed (l.foldl Sign.smax seed) = true ∧
    ∀ s ∈ l, Sign.le s (l.foldl Sign.smax seed) = true := by
  induction l with
  | nil => intro seed; exact ⟨sign_le_refl seed, by simp⟩
  | cons a t ih =>
    intro seed
    refine ⟨sign_le_trans _ _ _ (smax_le_left seed a) (ih (Sign.smax seed a)).1, ?_⟩
    intro s hs
    rcases List.mem_cons.mp hs with h | h
    · subst h; exact sign_le_trans _ _ _ (smax_le_right seed s) (ih _).1
    · exact (ih _).2 s h

theorem foldl_smax_mem (l : List Sign) : ∀ seed,
    l.foldl Sign.smax seed = seed ∨ l.foldl Sign.smax seed ∈ l := by
  induction l with
  | nil => intro seed; left; rfl
  | cons a t ih =>
    intro seed
    rcases ih (Sign.smax seed a) with h | h
    · rcases smax_or seed a with h2 | h2
      · left; rw [List.foldl_cons, h, h2]
      · right; rw [List.foldl_cons, h, h2]; exact List.mem_cons_self a t
    · right; exact List.mem_cons_of_mem a (by rw [List.foldl_cons]; exact h)

theorem foldl_smin_le (l : List Sign) : ∀ seed,
    Sign.le (l.foldl Sign.smin seed) seed = true ∧
    ∀ s ∈ l, Sign.le (l.foldl Sign.smin seed) s = true := by
  induction l with
  | nil => intro seed; exact ⟨sign_le_refl seed, by simp⟩
  | cons a t ih =>
    intro seed
    refine ⟨sign_le_trans _ _ _ (ih (Sign.smin seed a)).1 (smin_le_left seed a), ?_⟩
    intro s hs
    rcases List.mem_cons.mp hs with h | h
    · subst h; exact sign_le_trans _ _ _ (ih _).1 (smin_le_right seed s)
    · exact (ih _).2 s h

theorem foldl_smin_mem (l : List Sign) : ∀ seed,
    l.foldl Sign.smin seed = seed ∨ l.foldl Sign.smin seed ∈ l := by
  induction l with
  | nil => intro seed; left; rfl
  | cons a t ih =>
    intro seed
    rcases ih (Sign.smin seed a) with h | h
    · rcases smin_or seed a with h2 | h2
      · left; rw [List.foldl_cons, h, h2]
      · right; rw [List.foldl_cons, h, h2]; exact List.mem_cons_self a t
    · right; exact List.mem_cons_of_mem a (by rw [List.foldl_cons]; exact h)

/-- `max(signs)` is the order-maximum: the fold from the bottom element equals
any member that bounds every member from above. -/
theorem foldl_smax_eq_max (l : List Sign) (m : Sign) (hmem : m ∈ l)
    (hub : ∀ s ∈ l, Sign.le s m = true) :
    l.foldl Sign.smax .NEGATIVE = m := by
  have hmF := (foldl_smax_le l .NEGATIVE).2 m hmem
  have hFm : Sign.le (l.foldl Sign.smax .NEGATIVE) m = true := by
    rcases foldl_smax_mem l .NEGATIVE with h | h
    · rw [h]; exact sign_neg_le m
    · exact hub _ h
  exact sign_le_antisymm _ _ hFm hmF

/-- `min(signs)` is the order-minimum: the fold from the top element equals
any member that bounds every member from below. -/
theorem foldl_smin_eq_min (l : List Sign) (m : Sign) (hmem : m ∈ l)
    (hlb : ∀ s ∈ l, Sign.le m s = true) :
    l.foldl Sign.smin .UNKNOWN = m := by
  have hFm := (foldl_smin_le l .UNKNOWN).2 m hmem
  have hmF : Sign.le m (l.foldl Sign.smin .UNKNOWN) = true := by
    rcases foldl_smin_mem l .UNKNOWN with h | h
    · rw [h]; exact sign_le_unknown m
    · exact hlb _ h
  exact sign_le_antisymm _ _ hFm hmF

/-! ## Claim theorems -/

/-- C1: the claim says the registry returned by `generate_atom_dict` has an
entry for every atom class defined in atoms.py, wrapper atoms included.  The
code iterates `Atom.__subclasses__()`, which lists only the direct
subclasses, so the registry holds exactly the 18 direct subclasses and none
of the wrapper atoms named by the claim (sqrt, abs, norm2, norm1, norm_inf,
square, square_abs, sum_square, pos, pow_abs, berhu, huber_pos) is a key. -/
theorem spec_c1_registry_misses_wrapper_atoms :
    atom_dict_keys = ["log_sum_exp", "max", "min", "log", "sum", "geo_mean",
      "log_normcdf", "exp", "norm", "entr", "huber", "inv_pos", "kl_div",
      "norm_largest", "pow", "rel_entr", "quad_over_lin", "sum_largest"]
    ∧ "sqrt" ∉ atom_dict_keys ∧ "abs" ∉ atom_dict_keys
    ∧ "norm2" ∉ atom_dict_keys ∧ "norm1" ∉ atom_dict_keys
    ∧ "norm_inf" ∉ atom_dict_keys ∧ "square" ∉ atom_dict_keys
    ∧ "square_abs" ∉ atom_dict_keys ∧ "sum_square" ∉ atom_dict_keys
    ∧ "pos" ∉ atom_dict_keys ∧ "pow_abs" ∉ atom_dict_keys
    ∧ "berhu" ∉ atom_dict_keys ∧ "huber_pos" ∉ atom_dict_keys := by
  decide

/-- C2: the claim says a registered builder invoked with zero arguments
raises an ArityError.  The zero-argument branch of `atomic_func`
(atom_loader.py line 14) evaluates `'%s requires at least one argument.'
% func_name` with `func_name` still unassigned (it is first assigned at line
19), so every builder aborts with UnboundLocalError instead; no Expression is
constructed either way. -/
theorem spec_c2_zero_args_unbound_local (cls : AtomClass) :
    make_atomic_func cls [] = .error .unboundLocalError := rfl

/-- C3: the exp builder applied to a convex argument yields curvature CONVEX
with no diagnostics; applied to a concave argument it yields NONCONVEX with
exactly one diagnostic, indexed to argument 0. -/
theorem spec_c3_exp_composition (x : Expression) :
    (x.curvature = .CONVEX →
      ∃ e, make_atomic_func .exp [.expr x] = .ok e ∧
        e.curvature = .CONVEX ∧ e.errors = [])
    ∧ (x.curvature = .CONCAVE →
      ∃ e, make_atomic_func .exp [.expr x] = .ok e ∧
        e.curvature = .NONCONVEX ∧ e.errors.map DCPError.index = [some 0]) := by
  constructor
  · intro hx
    refine ⟨_, rfl, ?_, ?_⟩
    · show Curvature.sum
        [Monotonicity.dcp_curvature .INCREASING .CONVEX x.curvature] = .CONVEX
      rw [hx]; decide
    · show (DCPViolationFactory.composition_error .CONVEX [.INCREASING]
          [x.curvature]) = []
      rw [hx]; decide
  · intro hx
    refine ⟨_, rfl, ?_, ?_⟩
    · show Curvature.sum
        [Monotonicity.dcp_curvature .INCREASING .CONVEX x.curvature] = .NONCONVEX
      rw [hx]; decide
    · show (DCPViolationFactory.composition_error .CONVEX [.INCREASING]
          [x.curvature]).map DCPError.index = [some 0]
      rw [hx]; decide

/-- C3 witness at concrete convex and concave arguments. -/
theorem spec_c3_exp_composition_witness :
    (∃ e, make_atomic_func .exp [.expr (.mk .CONVEX .POSITIVE "cx" [] [] none)] = .ok e ∧
      e.curvature = .CONVEX ∧ e.errors = [])
    ∧ (∃ e, make_atomic_func .exp [.expr (.mk .CONCAVE .POSITIVE "cc" [] [] none)] = .ok e ∧
      e.curvature = .NONCONVEX ∧ e.errors.map DCPError.index = [some 0]) :=
  ⟨(spec_c3_exp_composition (.mk .CONVEX .POSITIVE "cx" [] [] none)).1 rfl,
   (spec_c3_exp_composition (.mk .CONCAVE .POSITIVE "cc" [] [] none)).2 rfl⟩

/-- C4: the sum builder on two convex arguments yields CONVEX; on a convex
and a concave argument it yields NONCONVEX, each argument's contribution
being that argument's own curvature (sum's own curvature is AFFINE), the
overall curvature the join of the contributions, and the diagnostics exactly
one per argument whose contribution is NONCONVEX — here none. -/
theorem spec_c4_sum_composition (x y : Expression) :
    (x.curvature = .CONVEX → y.curvature = .CONVEX →
      ∃ e, make_atomic_func .sum [.expr x, .expr y] = .ok e ∧
        e.curvature = .CONVEX ∧ e.errors = [])
    ∧ (x.curvature = .CONVEX → y.curvature = .CONCAVE →
      ∃ e, make_atomic_func .sum [.expr x, .expr y] = .ok e ∧
        e.curvature = .NONCONVEX ∧
        Monotonicity.dcp_curvature .INCREASING .AFFINE x.curvature = x.curvature ∧
        Monotonicity.dcp_curvature .INCREASING .AFFINE y.curvature = y.curvature ∧
        e.curvature = Curvature.sum [x.curvature, y.curvature] ∧
        e.errors.length =
          (([Monotonicity.dcp_curvature .INCREASING .AFFINE x.curvature,
             Monotonicity.dcp_curvature .INCREASING .AFFINE y.curvature].filter
            (fun c => decide (c = Curvature.NONCONVEX))).length)) := by
  constructor
  · intro hx hy
    refine ⟨_, rfl, ?_, ?_⟩
    · show Curvature.sum
        [Monotonicity.dcp_curvature .INCREASING .AFFINE x.curvature,
         Monotonicity.dcp_curvature .INCREASING .AFFINE y.curvature] = .CONVEX
      rw [hx, hy]; decide
    · show (DCPViolationFactory.composition_error .AFFINE [.INCREASING, .INCREASING]
          [x.curvature, y.curvature]) = []
      rw [hx, hy]; decide
  · intro hx hy
    refine ⟨_, rfl, ?_, ?_, ?_, ?_, ?_⟩
    · show Curvature.sum
        [Monotonicity.dcp_curvature .INCREASING .AFFINE x.curvature,
         Monotonicity.dcp_curvature .INCREASING .AFFINE y.curvature] = .NONCONVEX
      rw [hx, hy]; decide
    · rw [hx]; decide
    · rw [hy]; decide
    · show Curvature.sum
        [Monotonicity.dcp_curvature .INCREASING .AFFINE x.curvature,
         Monotonicity.dcp_curvature .INCREASING .AFFINE y.curvature] =
        Curvature.sum [x.curvature, y.curvature]
      rw [hx, hy]; decide
    · show (DCPViolationFactory.composition_error .AFFINE [.INCREASING, .INCREASING]
          [x.curvature, y.curvature]).length = _
      rw [hx, hy]; decide

/-- C4 witness at concrete convex and concave arguments. -/
theorem spec_c4_sum_composition_witness :
    (∃ e, make_atomic_func .sum [.expr (.mk .CONVEX .POSITIVE "cx" [] [] none),
        .expr (.mk .CONVEX .UNKNOWN "cy" [] [] none)] = .ok e ∧
      e.curvature = .CONVEX ∧ e.errors = [])
    ∧ (∃ e, make_atomic_func .sum [.expr (.mk .CONVEX .POSITIVE "cx" [] [] none),
        .expr (.mk .CONCAVE .UNKNOWN "cz" [] [] none)] = .ok e ∧
      e.curvature = .NONCONVEX ∧ e.errors.length = 0) := by
  constructor
  · exact (spec_c4_sum_composition (.mk .CONVEX .POSITIVE "cx" [] [] none)
      (.mk .CONVEX .UNKNOWN "cy" [] [] none)).1 rfl rfl
  · obtain ⟨e, h1, h2, _, _, _, h6⟩ :=
      (spec_c4_sum_composition (.mk .CONVEX .POSITIVE "cx" [] [] none)
        (.mk .CONCAVE .UNKNOWN "cz" [] [] none)).2 rfl rfl
    exact ⟨e, h1, h2, by rw [h6]; decide⟩

/-- C5: the log builder on an argument of sign NEGATIVE yields curvature
NONCONVEX, sign UNKNOWN, and exactly one un-indexed (domain) diagnostic; on a
POSITIVE, affine argument it yields CONCAVE, sign UNKNOWN, and no
diagnostics. -/
theorem spec_c5_log_domain (x : Expression) :
    (x.sign = .NEGATIVE →
      ∃ e, make_atomic_func .log [.expr x] = .ok e ∧
        e.curvature = .NONCONVEX ∧ e.sign = .UNKNOWN ∧
        (e.errors.filter (fun d => d.index.isNone)).length = 1)
    ∧ (x.sign = .POSITIVE → x.curvature = .AFFINE →
      ∃ e, make_atomic_func .log [.expr x] = .ok e ∧
        e.curvature = .CONCAVE ∧ e.sign = .UNKNOWN ∧ e.errors = []) := by
  constructor
  · intro hs
    refine ⟨_, rfl, ?_, rfl, ?_⟩
    · show Curvature.sum
        [Monotonicity.dcp_curvature .INCREASING
          (if x.sign = .NEGATIVE ∨ x.sign = .ZERO then .NONCONVEX else .CONCAVE)
          x.curvature] = .NONCONVEX
      rw [hs]; rfl
    · show ((DCPViolationFactory.composition_error
          (if x.sign = .NEGATIVE ∨ x.sign = .ZERO then .NONCONVEX else .CONCAVE)
          [.INCREASING] [x.curvature]).filter (fun d => d.index.isNone)).length = 1
      rw [hs]; rfl
  · intro hs hc
    refine ⟨_, rfl, ?_, rfl, ?_⟩
    · show Curvature.sum
        [Monotonicity.dcp_curvature .INCREASING
          (if x.sign = .NEGATIVE ∨ x.sign = .ZERO then .NONCONVEX else .CONCAVE)
          x.curvature] = .CONCAVE
      rw [hs, hc]; decide
    · show (DCPViolationFactory.composition_error
          (if x.sign = .NEGATIVE ∨ x.sign = .ZERO then .NONCONVEX else .CONCAVE)
          [.INCREASING] [x.curvature]) = []
      rw [hs, hc]; decide

/-- C5 witness at concrete negative and positive-affine arguments. -/
theorem spec_c5_log_domain_witness :
    (∃ e, make_atomic_func .log [.expr (.mk .AFFINE .NEGATIVE "xn" [] [] none)] = .ok e ∧
      e.curvature = .NONCONVEX ∧ e.sign = .UNKNOWN ∧
      (e.errors.filter (fun d => d.index.isNone)).length = 1)
    ∧ (∃ e, make_atomic_func .log [.expr (.mk .AFFINE .POSITIVE "xp" [] [] none)] = .ok e ∧
      e.curvature = .CONCAVE ∧ e.sign = .UNKNOWN ∧ e.errors = []) :=
  ⟨(spec_c5_log_domain (.mk .AFFINE .NEGATIVE "xn" [] [] none)).1 rfl,
   (spec_c5_log_domain (.mk .AFFINE .POSITIVE "xp" [] [] none)).2 rfl rfl⟩

/-- Symbolic evaluation of `Max.construct` on expression arguments. -/
theorem max_construct_eval (es : List Expression) (hne : es ≠ []) :
    Max.construct (es.map Arg.expr) = .ok
      { args := es, original_args := es, parameter := .absent,
        sign := Max.sign_rule (es.map Expression.sign), signed_curvature := .CONVEX,
        monotonicities := List.replicate es.length .INCREASING } := by
  unfold Max.construct
  rw [init_map_expr es hne]
  rfl

/-- Symbolic evaluation of `Min.construct` on expression arguments. -/
theorem min_construct_eval (es : List Expression) (hne : es ≠ []) :
    Min.construct (es.map Arg.expr) = .ok
      { args := es, original_args := es, parameter := .absent,
        sign := Min.sign_rule (es.map Expression.sign), signed_curvature := .CONCAVE,
        monotonicities := List.replicate es.length .INCREASING } := by
  unfold Min.construct
  rw [init_map_expr es hne]
  rfl

/-- C6: norm(x, 0.5) fails with a ParameterError — the error is the result of
the whole construction, so no sign or curvature is ever computed — and
norm(x, 2) always succeeds.  The claim's second half (an affine argument
gives overall curvature CONVEX) holds whenever the argument's sign is not
UNKNOWN: a known sign makes the absolute-value monotonicity table give
INCREASING or DECREASING and the convex composition rule applies.  For sign
UNKNOWN the argument is NONMONOTONIC and the spec's composition rule makes an
AFFINE argument contribute AFFINE, so the claim fails there (see the
counterexample). -/
theorem spec_c6_norm_parameter (x : Expression) :
    make_atomic_func .norm [.expr x, .val (.num ⟨5, 1⟩)] = .error .parameterError
    ∧ (∃ e, make_atomic_func .norm [.expr x, .val (.num ⟨2, 0⟩)] = .ok e)
    ∧ (x.curvature = .AFFINE → x.sign ≠ .UNKNOWN →
        ∃ e, make_atomic_func .norm [.expr x, .val (.num ⟨2, 0⟩)] = .ok e ∧
          e.curvature = .CONVEX) := by
  refine ⟨rfl, ⟨_, rfl⟩, ?_⟩
  intro hc hs
  refine ⟨_, rfl, ?_⟩
  show Curvature.sum
      [Monotonicity.dcp_curvature (ABS_SIGN_TO_MONOTONICITY x.sign) .CONVEX x.curvature]
      = .CONVEX
  rw [hc]
  cases hsx : x.sign with
  | NEGATIVE => rfl
  | ZERO => rfl
  | POSITIVE => rfl
  | UNKNOWN => exact absurd hsx hs

/-- C6 counterexample: the claim as stated fails at the affine argument of
UNKNOWN sign — norm(x, 2) then has curvature AFFINE, not CONVEX. -/
theorem spec_c6_norm_parameter_counterexample :
    ∃ e, make_atomic_func .norm
        [.expr (.mk .AFFINE .UNKNOWN "x" [] [] none), .val (.num ⟨2, 0⟩)] = .ok e ∧
      (Expression.mk .AFFINE .UNKNOWN "x" [] [] none).curvature = .AFFINE ∧
      e.curvature = .AFFINE ∧ ¬ e.curvature = .CONVEX :=
  ⟨_, rfl, rfl, rfl, by decide⟩

/-- C6 witness at a concrete affine argument of POSITIVE sign. -/
theorem spec_c6_norm_parameter_witness :
    make_atomic_func .norm
        [.expr (.mk .AFFINE .POSITIVE "xp" [] [] none), .val (.num ⟨5, 1⟩)]
      = .error .parameterError
    ∧ (∃ e, make_atomic_func .norm
        [.expr (.mk .AFFINE .POSITIVE "xp" [] [] none), .val (.num ⟨2, 0⟩)] = .ok e ∧
      e.curvature = .CONVEX) :=
  ⟨(spec_c6_norm_parameter (.mk .AFFINE .POSITIVE "xp" [] [] none)).1,
   (spec_c6_norm_parameter (.mk .AFFINE .POSITIVE "xp" [] [] none)).2.2 rfl (by decide)⟩

/-- C7: for every non-empty argument list, the Max atom's sign is the
order-maximum of the argument signs under NEGATIVE < ZERO < POSITIVE <
UNKNOWN, except that maximum UNKNOWN with some ZERO argument gives POSITIVE;
the Min atom's sign is the order-minimum, except that minimum ZERO with some
UNKNOWN argument gives NEGATIVE. -/
theorem spec_c7_max_min_sign (es : List Expression) (hne : es ≠ []) :
    (∀ m, m ∈ es.map Expression.sign →
      (∀ s ∈ es.map Expression.sign, Sign.le s m = true) →
      ∃ i, Max.construct (es.map Arg.expr) = .ok i ∧
        i.sign = (if m = .UNKNOWN ∧ .ZERO ∈ es.map Expression.sign
                  then .POSITIVE else m))
    ∧ (∀ m, m ∈ es.map Expression.sign →
      (∀ s ∈ es.map Expression.sign, Sign.le m s = true) →
      ∃ i, Min.construct (es.map Arg.expr) = .ok i ∧
        i.sign = (if m = .ZERO ∧ .UNKNOWN ∈ es.map Expression.sign
                  then .NEGATIVE else m)) := by
  constructor
  · intro m hmem hub
    refine ⟨_, max_construct_eval es hne, ?_⟩
    show Max.sign_rule (es.map Expression.sign) = _
    unfold Max.sign_rule
    rw [foldl_smax_eq_max (es.map Expression.sign) m hmem hub]
  · intro m hmem hlb
    refine ⟨_, min_construct_eval es hne, ?_⟩
    show Min.sign_rule (es.map Expression.sign) = _
    unfold Min.sign_rule
    rw [foldl_smin_eq_min (es.map Expression.sign) m hmem hlb]

/-- C7 witness on the asymmetric corner: signs [ZERO, UNKNOWN] give Max sign
POSITIVE and Min sign NEGATIVE. -/
theorem spec_c7_max_min_sign_witness :
    (∃ i, Max.construct [Arg.expr (.mk .AFFINE .ZERO "z" [] [] none),
        Arg.expr (.mk .AFFINE .UNKNOWN "u" [] [] none)] = .ok i ∧
      i.sign = .POSITIVE)
    ∧ (∃ i, Min.construct [Arg.expr (.mk .AFFINE .ZERO "z" [] [] none),
        Arg.expr (.mk .AFFINE .UNKNOWN "u" [] [] none)] = .ok i ∧
      i.sign = .NEGATIVE) := by
  constructor
  · exact (spec_c7_max_min_sign
      [.mk .AFFINE .ZERO "z" [] [] none, .mk .AFFINE .UNKNOWN "u" [] [] none]
      (by simp)).1 .UNKNOWN (by decide) (by decide)
  · exact (spec_c7_max_min_sign
      [.mk .AFFINE .ZERO "z" [] [] none, .mk .AFFINE .UNKNOWN "u" [] [] none]
      (by simp)).2 .ZERO (by decide) (by decide)

/-- C8: the square atom on x keeps the externally visible original arguments
as exactly [x] while the substituted arguments used for rule evaluation are
[x, 1]; the two lists are distinct fields with different values. -/
theorem spec_c8_square_original_args (x : Expression) :
    ∃ i, Square.construct [Arg.expr x] = .ok i ∧
      i.original_args = [x] ∧ i.args = [x, Constant ⟨1, 0⟩] ∧
      i.original_args ≠ i.args := by
  refine ⟨_, rfl, rfl, rfl, ?_⟩
  intro h
  simpa using congrArg List.length h

theorem except_bind_ok {α β ε : Type} (a : α) (f : α → Except ε β) :
    (Except.ok a : Except ε α) >>= f = f a := rfl

theorem except_bind_err {α β ε : Type} (e : ε) (f : α → Except ε β) :
    (Except.error e : Except ε α) >>= f = .error e := rfl

/-- Evaluation of `set_parameter` when the last argument converts to a
non-expression value: that value becomes the parameter, the last argument is
dropped, and only validation remains. -/
theorem set_parameter_last_val (validate : Param → Except PyError Unit) (default : Param)
    (front : List Arg) (last : Arg) (v : Value)
    (h : Atom.constant_to_number last = .ok (.val v)) :
    Parameterized.set_parameter validate default (front ++ [last]) =
      validate (Param.ofValue v) >>= fun _ => .ok (Param.ofValue v, front) := by
  unfold Parameterized.set_parameter
  rw [List.getLast?_concat]
  simp only [h, List.dropLast_concat]
  rfl

/-- Evaluation of `set_parameter` when converting the last argument raises:
the error aborts the construction. -/
theorem set_parameter_last_raises (validate : Param → Except PyError Unit) (default : Param)
    (front : List Arg) (last : Arg) (err : PyError)
    (h : Atom.constant_to_number last = .error err) :
    Parameterized.set_parameter validate default (front ++ [last]) = .error err := by
  unfold Parameterized.set_parameter
  rw [List.getLast?_concat]
  simp only [h]
  rfl

/-- C8 witness at a concrete argument. -/
theorem spec_c8_square_original_args_witness :
    ∃ i, Square.construct [Arg.expr (.mk .AFFINE .UNKNOWN "x" [] [] none)] = .ok i ∧
      i.original_args = [.mk .AFFINE .UNKNOWN "x" [] [] none] ∧
      i.args = [.mk .AFFINE .UNKNOWN "x" [] [] none, Constant ⟨1, 0⟩] ∧
      i.original_args ≠ i.args :=
  spec_c8_square_original_args (.mk .AFFINE .UNKNOWN "x" [] [] none)

/-- C9: for the variadic parameterized builders (norm, norm_largest,
sum_largest), a last argument that is a raw numeric literal, or an expression
passing the constant/negated-constant guard with a numerically parseable
display name (a Constant, or a negated Constant; a numeric literal becomes a
Constant under the builders' coercion), is consumed as the scalar parameter
and dropped from the argument vector, whatever its value: norm_largest and
sum_largest accept any number as the parameter, and norm succeeds with the
consumed parameter exactly when it validates (at least 1), aborting with a
ParameterError otherwise — in every outcome the argument is never kept as a
vector element.  In particular, with such an argument as the only one, the
vector is left empty, so the non-empty-argument check of `Atom.__init__`
raises a TypeError (for norm, the ParameterError fires first when the value
is below 1): no atom can be constructed from a lone numeric argument, shown
also through the registered norm, norm_largest and sum_largest builders
applied to a lone numeric literal. -/
theorem spec_c9_parameter_consumed (front : List Expression) (lastArg : Arg)
    (v q w : PyNum)
    (hshape : lastArg = Arg.val (.num v) ∨
      ∃ e, lastArg = Arg.expr e ∧ e.isConstantLike = true ∧ pyNumParse e.name = some v)
    (hq : pyNumParse (numStr q) = some w) :
    (front ≠ [] →
      ∃ i, Norm_largest.construct (front.map Arg.expr ++ [lastArg]) = .ok i ∧
        i.parameter = .num v ∧ i.args = front)
    ∧ (front ≠ [] →
      ∃ i, Sum_largest.construct (front.map Arg.expr ++ [lastArg]) = .ok i ∧
        i.parameter = .num v ∧ i.args = front)
    ∧ (PyNum.le ⟨1, 0⟩ v → front ≠ [] →
      ∃ i, Norm.construct (front.map Arg.expr ++ [lastArg]) = .ok i ∧
        i.parameter = .num v ∧ i.args = front)
    ∧ (¬ PyNum.le ⟨1, 0⟩ v →
      Norm.construct (front.map Arg.expr ++ [lastArg]) = .error .parameterError)
    ∧ (∀ i, Norm.construct (front.map Arg.expr ++ [lastArg]) = .ok i →
        i.parameter = .num v ∧ i.args = front)
    ∧ Norm_largest.construct [lastArg] = .error .typeError
    ∧ Sum_largest.construct [lastArg] = .error .typeError
    ∧ (PyNum.le ⟨1, 0⟩ v → Norm.construct [lastArg] = .error .typeError)
    ∧ (¬ PyNum.le ⟨1, 0⟩ v → Norm.construct [lastArg] = .error .parameterError)
    ∧ (PyNum.le ⟨1, 0⟩ w →
      make_atomic_func .norm [Arg.val (.num q)] = .error .typeError)
    ∧ (¬ PyNum.le ⟨1, 0⟩ w →
      make_atomic_func .norm [Arg.val (.num q)] = .error .parameterError)
    ∧ make_atomic_func .norm_largest [Arg.val (.num q)] = .error .typeError
    ∧ make_atomic_func .sum_largest [Arg.val (.num q)] = .error .typeError := by
  have hctn : Atom.constant_to_number lastArg = .ok (.val (.num v)) := by
    rcases hshape with h | ⟨e, he, hlike, hparse⟩
    · subst h; rfl
    · subst he; simp [Atom.constant_to_number, hlike, hparse]
  have hctn2 : Atom.constant_to_number (Arg.expr (Constant q)) = .ok (.val (.num w)) := by
    simp [Atom.constant_to_number, Expression.isConstantLike, Constant,
          Expression.constValue, Expression.name, hq]
  have hvalL : Norm_largest.validate (Param.ofValue (.num v)) = .ok () := rfl
  have hvalL2 : Norm_largest.validate (Param.ofValue (.num w)) = .ok () := rfl
  have hCL : ∀ fr : List Expression, fr ≠ [] →
      Norm_largest.construct (fr.map Arg.expr ++ [lastArg]) = .ok
        { args := fr, original_args := fr, parameter := .num v,
          sign := .POSITIVE, signed_curvature := .CONVEX,
          monotonicities := fr.map (fun e => ABS_SIGN_TO_MONOTONICITY e.sign) } := by
    intro fr hfr
    unfold Norm_largest.construct
    rw [set_parameter_last_val Norm_largest.validate _ _ _ _ hctn, hvalL]
    simp only [except_bind_ok, init_map_expr fr hfr]
    rfl
  have hCS : ∀ fr : List Expression, fr ≠ [] →
      Sum_largest.construct (fr.map Arg.expr ++ [lastArg]) = .ok
        { args := fr, original_args := fr, parameter := .num v,
          sign := .UNKNOWN, signed_curvature := .CONVEX,
          monotonicities := List.replicate fr.length .INCREASING } := by
    intro fr hfr
    unfold Sum_largest.construct
    rw [set_parameter_last_val Norm_largest.validate _ _ _ _ hctn, hvalL]
    simp only [except_bind_ok, init_map_expr fr hfr]
    rfl
  have hCN : PyNum.le ⟨1, 0⟩ v → ∀ fr : List Expression, fr ≠ [] →
      Norm.construct (fr.map Arg.expr ++ [lastArg]) = .ok
        { args := fr, original_args := fr, parameter := .num v,
          sign := Norm.sign_rule (fr.map Expression.sign), signed_curvature := .CONVEX,
          monotonicities := fr.map (fun e => ABS_SIGN_TO_MONOTONICITY e.sign) } := by
    intro hle fr hfr
    have hvalN : Norm.validate (Param.ofValue (.num v)) = .ok () := by
      simp [Norm.validate, Param.ofValue, hle]
    unfold Norm.construct
    rw [set_parameter_last_val Norm.validate _ _ _ _ hctn, hvalN]
    simp only [except_bind_ok, init_map_expr fr hfr]
    rfl
  have hFN : ¬ PyNum.le ⟨1, 0⟩ v → ∀ fr : List Arg,
      Norm.construct (fr ++ [lastArg]) = .error .parameterError := by
    intro hle fr
    have hvalN : Norm.validate (Param.ofValue (.num v)) = .error .parameterError := by
      simp [Norm.validate, Param.ofValue, hle]
    unfold Norm.construct
    rw [set_parameter_last_val Norm.validate _ _ _ _ hctn, hvalN]
    rfl
  have hELn : Norm_largest.construct [lastArg] = .error .typeError := by
    unfold Norm_largest.construct
    rw [show [lastArg] = [] ++ [lastArg] from rfl,
        set_parameter_last_val Norm_largest.validate _ _ _ _ hctn, hvalL]
    rfl
  have hELs : Sum_largest.construct [lastArg] = .error .typeError := by
    unfold Sum_largest.construct
    rw [show [lastArg] = [] ++ [lastArg] from rfl,
        set_parameter_last_val Norm_largest.validate _ _ _ _ hctn, hvalL]
    rfl
  have hENn : PyNum.le ⟨1, 0⟩ v → Norm.construct [lastArg] = .error .typeError := by
    intro hle
    have hvalN : Norm.validate (Param.ofValue (.num v)) = .ok () := by
      simp [Norm.validate, Param.ofValue, hle]
    unfold Norm.construct
    rw [show [lastArg] = [] ++ [lastArg] from rfl,
        set_parameter_last_val Norm.validate _ _ _ _ hctn, hvalN]
    rfl
  refine ⟨fun hfr => ⟨_, hCL front hfr, rfl, rfl⟩,
         fun hfr => ⟨_, hCS front hfr, rfl, rfl⟩,
         fun hle hfr => ⟨_, hCN hle front hfr, rfl, rfl⟩,
         fun hle => hFN hle (front.map Arg.expr),
         ?_, hELn, hELs, hENn, fun hle => hFN hle [], ?_, ?_, ?_, ?_⟩
  · intro i hi
    by_cases hle : PyNum.le ⟨1, 0⟩ v
    · rcases eq_or_ne front [] with hf | hf
      · rw [hf] at hi
        simp only [List.map_nil, List.nil_append] at hi
        rw [hENn hle] at hi
        exact Except.noConfusion hi
      · rw [hCN hle front hf] at hi
        injection hi with h2
        subst h2
        exact ⟨rfl, rfl⟩
    · rw [hFN hle (front.map Arg.expr)] at hi
      exact Except.noConfusion hi
  · intro hle
    have hvalN : Norm.validate (Param.ofValue (.num w)) = .ok () := by
      simp [Norm.validate, Param.ofValue, hle]
    have hC : Norm.construct [Arg.expr (Constant q)] = .error .typeError := by
      unfold Norm.construct
      rw [show [Arg.expr (Constant q)] = [] ++ [Arg.expr (Constant q)] from rfl,
          set_parameter_last_val Norm.validate _ _ _ _ hctn2, hvalN]
      rfl
    show Norm.construct [Expression.type_check (Arg.val (.num q))] >>= _ = _
    rw [show Expression.type_check (Arg.val (.num q)) = Arg.expr (Constant q) from rfl, hC]
    rfl
  · intro hle
    have hvalN : Norm.validate (Param.ofValue (.num w)) = .error .parameterError := by
      simp [Norm.validate, Param.ofValue, hle]
    have hC : Norm.construct [Arg.expr (Constant q)] = .error .parameterError := by
      unfold Norm.construct
      rw [show [Arg.expr (Constant q)] = [] ++ [Arg.expr (Constant q)] from rfl,
          set_parameter_last_val Norm.validate _ _ _ _ hctn2, hvalN]
      rfl
    show Norm.construct [Expression.type_check (Arg.val (.num q))] >>= _ = _
    rw [show Expression.type_check (Arg.val (.num q)) = Arg.expr (Constant q) from rfl, hC]
    rfl
  · have hC : Norm_largest.construct [Arg.expr (Constant q)] = .error .typeError := by
      unfold Norm_largest.construct
      rw [show [Arg.expr (Constant q)] = [] ++ [Arg.expr (Constant q)] from rfl,
          set_parameter_last_val Norm_largest.validate _ _ _ _ hctn2, hvalL2]
      rfl
    show Norm_largest.construct [Expression.type_check (Arg.val (.num q))] >>= _ = _
    rw [show Expression.type_check (Arg.val (.num q)) = Arg.expr (Constant q) from rfl, hC]
    rfl
  · have hC : Sum_largest.construct [Arg.expr (Constant q)] = .error .typeError := by
      unfold Sum_largest.construct
      rw [show [Arg.expr (Constant q)] = [] ++ [Arg.expr (Constant q)] from rfl,
          set_parameter_last_val Norm_largest.validate _ _ _ _ hctn2, hvalL2]
      rfl
    show Sum_largest.construct [Expression.type_check (Arg.val (.num q))] >>= _ = _
    rw [show Expression.type_check (Arg.val (.num q)) = Arg.expr (Constant q) from rfl, hC]
    rfl

/-- C9 witness: a negated Constant -2 as the last argument of norm_largest is
consumed as the parameter with value -2; for norm the same argument is
consumed and then rejected by validation (ParameterError, so it is still
never a vector element); the registered norm builder applied to a lone
numeric literal 2 consumes it as p and fails the non-empty-argument check. -/
theorem spec_c9_parameter_consumed_witness :
    (∃ i, Norm_largest.construct [Arg.expr (.mk .AFFINE .UNKNOWN "x" [] [] none),
        Arg.expr (.mk .CONSTANT .NEGATIVE "-2" [Constant ⟨2, 0⟩] [] none)] = .ok i ∧
      i.parameter = .num ⟨-2, 0⟩ ∧
      i.args = [.mk .AFFINE .UNKNOWN "x" [] [] none])
    ∧ Norm.construct [Arg.expr (.mk .AFFINE .UNKNOWN "x" [] [] none),
        Arg.expr (.mk .CONSTANT .NEGATIVE "-2" [Constant ⟨2, 0⟩] [] none)]
        = .error .parameterError
    ∧ make_atomic_func .norm [Arg.val (.num ⟨2, 0⟩)] = .error .typeError := by
  have h := spec_c9_parameter_consumed [.mk .AFFINE .UNKNOWN "x" [] [] none]
    (Arg.expr (.mk .CONSTANT .NEGATIVE "-2" [Constant ⟨2, 0⟩] [] none))
    ⟨-2, 0⟩ ⟨2, 0⟩ ⟨2, 0⟩
    (Or.inr ⟨.mk .CONSTANT .NEGATIVE "-2" [Constant ⟨2, 0⟩] [] none,
      rfl, by decide, by decide⟩)
    (by decide)
  exact ⟨h.1 (by simp), h.2.2.2.1 (by decide), h.2.2.2.2.2.2.2.2.2.1 (by decide)⟩

/-- C10: a last argument that is a unary negation of a non-numeric
sub-expression (one sub-expression, display name the minus sign followed by
that sub-expression's name, not numerically parseable) passes the
negated-constant guard of `constant_to_number`, whose fallback `float`
conversion then raises an uncaught ValueError: the construction of a
parameterized atom aborts with ValueError — not ParameterError — and the
argument is never treated as an ordinary expression argument. -/
theorem spec_c10_negated_nonnumeric_value_error (front : List Expression)
    (x last s : Expression)
    (hsub : last.subexpressions = [s])
    (hname : last.name = MINUS ++ s.name)
    (hconst : last.constValue = none)
    (hparse : pyNumParse last.name = none) :
    Norm.construct (front.map Arg.expr ++ [Arg.expr last]) = .error .valueError
    ∧ Norm_largest.construct (front.map Arg.expr ++ [Arg.expr last]) = .error .valueError
    ∧ Sum_largest.construct (front.map Arg.expr ++ [Arg.expr last]) = .error .valueError
    ∧ Huber.construct [Arg.expr x, Arg.expr last] = .error .valueError := by
  have hlike : last.isConstantLike = true := by
    simp [Expression.isConstantLike, hsub, hname, hconst]
  have hctn : Atom.constant_to_number (Arg.expr last) = .error .valueError := by
    simp [Atom.constant_to_number, hlike, hparse]
  refine ⟨?_, ?_, ?_, ?_⟩
  · unfold Norm.construct
    rw [set_parameter_last_raises Norm.validate _ _ _ _ hctn]
    rfl
  · unfold Norm_largest.construct
    rw [set_parameter_last_raises Norm_largest.validate _ _ _ _ hctn]
    rfl
  · unfold Sum_largest.construct
    rw [set_parameter_last_raises Norm_largest.validate _ _ _ _ hctn]
    rfl
  · show Huber.constructXM (Arg.expr x) (Arg.expr last) = _
    unfold Huber.constructXM
    rw [hctn]
    rfl

/-- C10 witness: norm(x, -x) and huber(x, -x) abort with ValueError. -/
theorem spec_c10_negated_nonnumeric_value_error_witness :
    Norm.construct [Arg.expr (.mk .AFFINE .UNKNOWN "x" [] [] none),
      Arg.expr (.mk .AFFINE .UNKNOWN "-x" [.mk .AFFINE .UNKNOWN "x" [] [] none] [] none)]
      = .error .valueError
    ∧ Huber.construct [Arg.expr (.mk .AFFINE .UNKNOWN "x" [] [] none),
      Arg.expr (.mk .AFFINE .UNKNOWN "-x" [.mk .AFFINE .UNKNOWN "x" [] [] none] [] none)]
      = .error .valueError := by
  have h := spec_c10_negated_nonnumeric_value_error
    [.mk .AFFINE .UNKNOWN "x" [] [] none]
    (.mk .AFFINE .UNKNOWN "x" [] [] none)
    (.mk .AFFINE .UNKNOWN "-x" [.mk .AFFINE .UNKNOWN "x" [] [] none] [] none)
    (.mk .AFFINE .UNKNOWN "x" [] [] none)
    rfl (by decide) rfl (by decide)
  exact ⟨h.1, h.2.2.2⟩

end Dcp
